import Mathlib

/-!
Verification of the SesameRecorder recording/chunking/transcription pipeline.

The definitions below are a shallow embedding of the TypeScript source:
the `FinalTranscript` dispatcher component (`audio-settings.tsx`), the
Gemini server action (`gemini-actions.ts`) and the recorder component
(`unnamed/part_002`, the `RecorderUI` React component).  Stateful React
code is embedded as explicit state passing; JavaScript arrays holding
holes are embedded as lists of options; thrown exceptions become
`Except`/`Option` results.
-/

namespace SesameRecorder

/-! ## Final transcript slots

The dispatcher's per-chunk output array `completedTranscripts`
(`audio-settings.tsx`, component `FinalTranscript`) and the parent's
`finalTranscripts` array (`part_002`) are JavaScript arrays written by
indexed assignment `arr[chunkIndex] = transcript`, which can leave holes;
a hole is modelled as `none`. -/

/-- One cell of a final-transcript array: a hole (`none`) or a transcript. -/
abbrev Slot := Option String

/-- JavaScript indexed assignment `arr[i] = v` on a copy of the array:
the array is extended with holes up to length `i + 1` when needed and
position `i` receives `some v`.  This is the write performed by
`setCompletedTranscripts` (`audio-settings.tsx` line 384) and by
`handleTranscriptComplete` (`part_002` line 1055). -/
def setExtend : List Slot → Nat → String → List Slot
  | [], 0, v => [some v]
  | [], i + 1, v => none :: setExtend [] i v
  | _ :: t, 0, v => some v :: t
  | h :: t, i + 1, v => h :: setExtend t i v

/-- Reading slot `k`: a hole or an out-of-range read is `none`
(JavaScript `arr[k]` giving `undefined`). -/
def getSlot (l : List Slot) (k : Nat) : Slot :=
  l.getD k none

theorem getSlot_nil (k : Nat) : getSlot [] k = none := by
  simp [getSlot]

theorem getSlot_setExtend :
    ∀ (l : List Slot) (i : Nat) (v : String) (k : Nat),
      getSlot (setExtend l i v) k = if k = i then some v else getSlot l k
  | [], 0, v, 0 => by simp [setExtend, getSlot]
  | [], 0, v, k + 1 => by simp [setExtend, getSlot]
  | [], i + 1, v, 0 => by simp [setExtend, getSlot]
  | [], i + 1, v, k + 1 => by
      simpa [setExtend, getSlot, Nat.succ_inj] using getSlot_setExtend [] i v k
  | h :: t, 0, v, 0 => by simp [setExtend, getSlot]
  | h :: t, 0, v, k + 1 => by simp [setExtend, getSlot]
  | h :: t, i + 1, v, 0 => by simp [setExtend, getSlot]
  | h :: t, i + 1, v, k + 1 => by
      simpa [setExtend, getSlot, Nat.succ_inj] using getSlot_setExtend t i v k

theorem setExtend_nil_comm :
    ∀ (i j : Nat) (v w : String), i ≠ j →
      setExtend (setExtend [] i v) j w = setExtend (setExtend [] j w) i v
  | 0, 0, _, _, h => absurd rfl h
  | 0, j + 1, v, w, _ => by simp [setExtend]
  | i + 1, 0, v, w, _ => by simp [setExtend]
  | i + 1, j + 1, v, w, h => by
      have hij : i ≠ j := fun hc => h (by rw [hc])
      simp [setExtend, setExtend_nil_comm i j v w hij]

theorem setExtend_comm :
    ∀ (l : List Slot) (i j : Nat) (v w : String), i ≠ j →
      setExtend (setExtend l i v) j w = setExtend (setExtend l j w) i v
  | [], i, j, v, w, h => setExtend_nil_comm i j v w h
  | _ :: _, 0, 0, _, _, h => absurd rfl h
  | _ :: _, 0, j + 1, v, w, _ => by simp [setExtend]
  | _ :: _, i + 1, 0, v, w, _ => by simp [setExtend]
  | _ :: t, i + 1, j + 1, v, w, h => by
      have hij : i ≠ j := fun hc => h (by rw [hc])
      simp [setExtend, setExtend_comm t i j v w hij]

/-- Applying a batch of completed chunk transcriptions, in completion
order, to a final-transcript array: each completion `(i, t)` performs the
indexed write `arr[i] = t`. -/
def applyWrites (l : List Slot) (ws : List (Nat × String)) : List Slot :=
  ws.foldl (fun acc p => setExtend acc p.1 p.2) l

theorem applyWrites_nil (l : List Slot) : applyWrites l [] = l := rfl

theorem applyWrites_cons (l : List Slot) (p : Nat × String) (ws : List (Nat × String)) :
    applyWrites l (p :: ws) = applyWrites (setExtend l p.1 p.2) ws := rfl

theorem getSlot_applyWrites_not_mem :
    ∀ (ws : List (Nat × String)) (l : List Slot) (i : Nat),
      i ∉ ws.map Prod.fst → getSlot (applyWrites l ws) i = getSlot l i
  | [], _, _, _ => rfl
  | p :: ws, l, i, h => by
      have h1 : i ≠ p.1 := by
        intro hc
        exact h (by simp [hc])
      have h2 : i ∉ ws.map Prod.fst := by
        intro hc
        exact h (by simp [hc])
      rw [applyWrites_cons, getSlot_applyWrites_not_mem ws _ i h2,
        getSlot_setExtend, if_neg h1]

theorem getSlot_applyWrites_mem :
    ∀ (ws : List (Nat × String)) (l : List Slot) (p : Nat × String),
      (ws.map Prod.fst).Nodup → p ∈ ws →
      getSlot (applyWrites l ws) p.1 = some p.2
  | [], _, _, _, hmem => absurd hmem (List.not_mem_nil _)
  | q :: ws, l, p, hnd, hmem => by
      rw [List.map_cons, List.nodup_cons] at hnd
      rcases List.mem_cons.mp hmem with hpq | hp
      · subst hpq
        rw [applyWrites_cons,
          getSlot_applyWrites_not_mem ws _ p.1 hnd.1,
          getSlot_setExtend, if_pos rfl]
      · exact getSlot_applyWrites_mem ws _ p hnd.2 hp

theorem applyWrites_perm (l : List Slot) (ws₁ ws₂ : List (Nat × String))
    (hp : ws₁.Perm ws₂) (hnd : (ws₁.map Prod.fst).Nodup) :
    applyWrites l ws₁ = applyWrites l ws₂ := by
  refine hp.foldl_eq' ?_ l
  intro x hx y hy z
  by_cases hxy : x = y
  · subst hxy; rfl
  · have hfst : x.1 ≠ y.1 := by
      intro hc
      exact hxy (List.inj_on_of_nodup_map hnd hx hy hc)
    exact setExtend_comm z x.1 y.1 x.2 y.2 hfst

/-- The whitespace class removed by JavaScript `String.prototype.trim`
(the ASCII part, which covers the source's inputs). -/
def jsWhitespace (c : Char) : Bool :=
  c = ' ' || c = '\t' || c = '\n' || c = '\r' || c = '\x0b' || c = '\x0c'

/-- Leading and trailing whitespace removal on a character list. -/
def trimChars (cs : List Char) : List Char :=
  ((cs.dropWhile jsWhitespace).reverse.dropWhile jsWhitespace).reverse

/-- JavaScript `text.trim()`. -/
def jsTrim (s : String) : String :=
  String.mk (trimChars s.data)

/-- The truthiness-and-trim filter used on a slot by
`downloadAllTranscripts` (`audio-settings.tsx` line 458):
`(t) => t && t.trim().length > 0` — a hole is falsy, an empty string is
falsy, and a whitespace-only string trims to length 0. -/
def slotKept : Slot → Bool
  | none => false
  | some t => t != "" && (jsTrim t).length > 0

/-- The separator inserted between segments by `downloadAllTranscripts`. -/
def segmentSep : String := "\n\n--- Next Segment ---\n\n"

/-- The combined output assembled by `downloadAllTranscripts`
(`audio-settings.tsx` lines 451–474): the slot array is traversed in
index order, kept slots are joined with `segmentSep`. -/
def downloadAllTranscripts (slots : List Slot) : String :=
  String.intercalate segmentSep ((slots.filter slotKept).filterMap id)

/-- The parent component's callback `handleTranscriptComplete`
(`part_002` lines 1054–1061): an indexed write of the completed
transcript into `finalTranscripts` at the chunk's own index. -/
def handleTranscriptComplete (prev : List Slot) (transcript : String) (chunkIndex : Nat) :
    List Slot :=
  setExtend prev chunkIndex transcript

/-! ## Credential pool rotation

`getApiKeyForChunk` (`audio-settings.tsx` lines 246–263) selects the API
key for a chunk by `chunkIndex % geminiApiKeys.length`, throwing when no
key is configured.  The throw is embedded as `none`. -/

/-- `getApiKeyForChunk` from `audio-settings.tsx`: `none` embeds the
`throw new Error("No Gemini API keys configured")` on an empty pool;
otherwise the key at `chunkIndex % pool.length` is returned. -/
def getApiKeyForChunk (geminiApiKeys : List String) (chunkIndex : Nat) : Option String :=
  if geminiApiKeys.length = 0 then none
  else geminiApiKeys[chunkIndex % geminiApiKeys.length]?

theorem getApiKeyForChunk_pos (geminiApiKeys : List String) (chunkIndex : Nat)
    (h : 0 < geminiApiKeys.length) :
    getApiKeyForChunk geminiApiKeys chunkIndex =
      some (geminiApiKeys.get ⟨chunkIndex % geminiApiKeys.length,
        Nat.mod_lt _ h⟩) := by
  rw [getApiKeyForChunk, if_neg (Nat.pos_iff_ne_zero.mp h),
    List.getElem?_eq_getElem (Nat.mod_lt _ h)]
  rfl

/-! ## Transcription dispatch with retry

`processAudioChunk` (`audio-settings.tsx` lines 323–402) processes one
sealed chunk: guard against re-processing, convert the payload, pick a
credential, call the Gemini server action inside a retry loop
(`maxRetries = 2`, 2-second backoff between attempts), then on success
write the transcript into `completedTranscripts[chunkIndex]`, add the
index to `processedChunks` and notify the parent; a throw anywhere lands
in the outer catch, which only sets the component-level `error` string.
The nondeterministic environment (network, service) is embedded as a
function giving each attempt's outcome: a rejected promise is `.error`
and a resolved response object is `.ok`. -/

/-- The `GeminiTranscriptResponse` shape returned by
`transcribeAudioWithGemini` (`gemini-actions.ts` lines 5–9). -/
structure GeminiResp where
  success : Bool
  transcript : Option String
  errText : Option String
deriving DecidableEq, Repr

/-- The retry loop of `processAudioChunk` (lines 354–377):
`retryCount` starts at 0; a rejected call increments it and, past
`maxRetries`, rethrows; otherwise the call is reattempted after the
backoff.  The first resolved response exits the loop.  `outcomes k` is
the result of attempt number `k` (0-based). -/
def retryLoop (outcomes : Nat → Except String GeminiResp) :
    Nat → Nat → Except String GeminiResp
  | attempt, fuel =>
    match outcomes attempt, fuel with
    | .ok r, _ => .ok r
    | .error e, 0 => .error e
    | .error _, fuel + 1 => retryLoop outcomes (attempt + 1) fuel

/-- Budget: `const maxRetries = 2` (`audio-settings.tsx` line 356). -/
def maxRetries : Nat := 2

/-- Running the retry loop from the first attempt with the fixed budget:
2 retries after the first attempt, i.e. at most 3 calls. -/
def runWithRetries (outcomes : Nat → Except String GeminiResp) :
    Except String GeminiResp :=
  retryLoop outcomes 0 maxRetries

/-- The mutable state of the `FinalTranscript` component that the
dispatch path touches (`audio-settings.tsx` lines 188–198 and the parent
`finalTranscripts` array of `part_002`). -/
structure DispatcherState where
  completedTranscripts : List Slot
  processedChunks : List Nat
  finalTranscripts : List Slot
  errorMsg : Option String
deriving DecidableEq, Repr

/-- The environment of one dispatch run: the sealed chunk count, the
configured key pool, and for every chunk index the per-attempt outcome
of the transcription call. -/
structure DispatchEnv where
  numChunks : Nat
  geminiApiKeys : List String
  outcomes : Nat → Nat → Except String GeminiResp

/-- The error string set by the outer catch of `processAudioChunk`
(line 399): `Chunk ${chunkIndex + 1} failed: ${error.message}`. -/
def chunkFailMsg (chunkIndex : Nat) (msg : String) : String :=
  "Chunk " ++ toString (chunkIndex + 1) ++ " failed: " ++ msg

/-- `processAudioChunk` (`audio-settings.tsx` lines 323–402) as a state
transition.  The early return fires when the chunk was already processed
or the index is out of range.  `getApiKeyForChunk` throwing (empty
pool), a response that never resolves within the retry budget, or a
resolved response with `success: false` (rethrown at line 380) all reach
the outer catch, which records only the component-level error string.
On success the transcript is written into the slot at the chunk's own
index, the index joins `processedChunks`, and `onTranscriptComplete`
writes the parent's `finalTranscripts` at the same index. -/
def processAudioChunk (env : DispatchEnv) (st : DispatcherState) (chunkIndex : Nat) :
    DispatcherState :=
  if chunkIndex ∈ st.processedChunks ∨ env.numChunks ≤ chunkIndex then st
  else
    match getApiKeyForChunk env.geminiApiKeys chunkIndex with
    | none => { st with errorMsg := some (chunkFailMsg chunkIndex "No Gemini API keys configured") }
    | some _ =>
      match runWithRetries (env.outcomes chunkIndex) with
      | .error e => { st with errorMsg := some (chunkFailMsg chunkIndex e) }
      | .ok r =>
        if r.success then
          { st with
            completedTranscripts :=
              setExtend st.completedTranscripts chunkIndex (r.transcript.getD ""),
            processedChunks := chunkIndex :: st.processedChunks,
            finalTranscripts :=
              handleTranscriptComplete st.finalTranscripts (r.transcript.getD "") chunkIndex }
        else
          { st with
            errorMsg := some (chunkFailMsg chunkIndex ((r.errText).getD "Gemini transcription failed")) }

/-- The `unprocessedChunks` list computed by the dispatch effect
(`audio-settings.tsx` line 407): all chunk indices not yet in
`processedChunks`, in index order. -/
def unprocessedChunks (numChunks : Nat) (processedChunks : List Nat) : List Nat :=
  (List.range numChunks).filter (fun i => decide (i ∉ processedChunks))

/-- The sequential loop of the dispatch effect (lines 415–426):
each unprocessed chunk is processed in turn, a failed chunk does not
stop the loop. -/
def processChunks (env : DispatchEnv) (st : DispatcherState) : DispatcherState :=
  (unprocessedChunks env.numChunks st.processedChunks).foldl (processAudioChunk env) st

/-- One firing of the dispatch effect (`audio-settings.tsx` lines
404–431): processing starts only when chunks exist, `autoStart` is set,
no run is already in flight, the key pool is non-empty and some chunk is
unprocessed; otherwise the state is left untouched. -/
def dispatchCycle (env : DispatchEnv) (autoStart processingFlag : Bool)
    (st : DispatcherState) : DispatcherState :=
  if 0 < env.numChunks ∧ autoStart = true ∧ processingFlag = false ∧
      0 < env.geminiApiKeys.length ∧
      unprocessedChunks env.numChunks st.processedChunks ≠ [] then
    processChunks env st
  else st

/-- Whether the "Add Gemini API keys in Settings to enable
transcription" notice is rendered (`audio-settings.tsx` lines 557–570):
it sits inside the `audioChunks.length === 0` empty-state branch and is
shown there exactly when the key pool is empty. -/
def notConfiguredMessageShown (numChunks numKeys : Nat) : Bool :=
  numChunks == 0 && numKeys == 0

/-! ## Chunked recorder

`RecorderUI` (`part_002`) drives a `MediaRecorder`; `dataavailable`
events append encoded blobs to `currentChunkDataRef`, the 30-second
timer stops the encoder, and the `stop` handler calls
`saveCurrentChunk` and restarts.  Blobs are embedded as byte lists. -/

/-- The `AudioChunk` record (`part_002` lines 53–58). -/
structure AudioChunk where
  blobData : List Nat
  timestamp : String
  duration : Nat
  chunkNumber : Nat
deriving DecidableEq, Repr

/-- `const CHUNK_DURATION = 30` (`part_002` line 123). -/
def CHUNK_DURATION : Nat := 30

/-- The recorder-side mutable state of `RecorderUI` touched by the
seal cycle: the sealed chunk list, the 1-based counter
`currentChunkNumber`, the running chunk timer, the buffered
`dataavailable` payloads, and whether a `MediaRecorder` instance exists. -/
structure RecorderState where
  audioChunks : List AudioChunk
  currentChunkNumber : Nat
  chunkDuration : Nat
  currentChunkData : List (List Nat)
  mediaRecorderPresent : Bool
  isRecordingFlag : Bool
deriving DecidableEq, Repr

/-- The `dataavailable` listener (`part_002` lines 934–938): a payload
of positive size is appended to the current chunk's buffer. -/
def onDataAvailable (st : RecorderState) (data : List Nat) : RecorderState :=
  if 0 < data.length then
    { st with currentChunkData := st.currentChunkData ++ [data] }
  else st

/-- `saveCurrentChunk` (`part_002` lines 761–781) as invoked through
the `MediaRecorder` `stop` listener.  The listener, registered once in
`startRecording` (line 940), closes over the `saveCurrentChunk`
instance of the session-start render, so the `currentChunkNumber` read
at line 771 is the frozen render-time value `closureChunkNumber`, not
the live state.  The ref reads (`currentChunkDataRef`,
`mediaRecorderRef`) and the functional updates
(`setAudioChunks (prev => ...)`, `setCurrentChunkNumber (prev => prev + 1)`,
`setChunkDuration(0)`) act on the live state as usual: when buffered
data exists and a recorder is present, the buffer is concatenated into
one immutable `AudioChunk` stamped `closureChunkNumber` with the fixed
30-second duration and appended; the buffer and chunk timer reset and
the live counter increments. -/
def saveCurrentChunk (closureChunkNumber : Nat) (st : RecorderState) (now : String) :
    RecorderState :=
  if 0 < st.currentChunkData.length ∧ st.mediaRecorderPresent = true then
    { st with
      audioChunks := st.audioChunks ++
        [{ blobData := st.currentChunkData.flatten, timestamp := now,
           duration := CHUNK_DURATION, chunkNumber := closureChunkNumber }],
      currentChunkData := [],
      chunkDuration := 0,
      currentChunkNumber := st.currentChunkNumber + 1 }
  else st

/-- The session reset performed by `startRecording` once streams are
acquired (`part_002` lines 932 and 965–975): recorder constructed,
buffer cleared, counter back to 1, chunk list emptied, recording flag
set. -/
def startRecordingReset (st : RecorderState) : RecorderState :=
  { st with
    mediaRecorderPresent := true,
    currentChunkData := [],
    isRecordingFlag := true,
    chunkDuration := 0,
    currentChunkNumber := 1,
    audioChunks := [] }

/-- Accumulating one recording interval's `dataavailable` events. -/
def recordInterval (st : RecorderState) (events : List (List Nat)) : RecorderState :=
  events.foldl onDataAvailable st

/-- One seal: the interval's data events arrive, then the timer stops
the encoder and the `stop` handler (`part_002` lines 940–954) calls the
`saveCurrentChunk` closure it captured at registration — every seal of
the session therefore stamps the same `closureChunkNumber`. -/
def sealCycle (closureChunkNumber : Nat) (st : RecorderState)
    (iv : List (List Nat) × String) : RecorderState :=
  saveCurrentChunk closureChunkNumber (recordInterval st iv.1) iv.2

/-- A run of successive timer-driven seals: the `stop` listener is
never re-registered (`restartRecordingForNextChunk` only calls
`start(1000)` on the same recorder), so one frozen closure value
serves the whole run. -/
def runSeals (closureChunkNumber : Nat) (st : RecorderState)
    (ivs : List (List (List Nat) × String)) : RecorderState :=
  ivs.foldl (sealCycle closureChunkNumber) st

/-- A whole session start followed by its seals (`part_002` lines
799–993): the `stop` listener registered at line 940 captures the
`saveCurrentChunk` closure of the render in which `startRecording` ran,
freezing the `currentChunkNumber` it will stamp at that render-time
value; the state resets (`setCurrentChunkNumber(1)`,
`setAudioChunks([])`, lines 965–975) happen afterwards and do not
affect the captured closure. -/
def startSession (st : RecorderState) (ivs : List (List (List Nat) × String)) :
    RecorderState :=
  runSeals st.currentChunkNumber (startRecordingReset st) ivs

/-! ## Desktop recognition heuristic

`setupDesktopRecognition` (`part_002` lines 674–717) classifies each
finalized desktop recognition result with three case-insensitive regular
expressions plus a length threshold.  The regex engine fragment used —
anchored alternation of literal openers, and `\b`-delimited literal
words — is embedded directly over character lists. -/

/-- JavaScript `\w`: ASCII letters, digits and underscore. -/
def wordChar (c : Char) : Bool :=
  c.isAlpha || c.isDigit || c = '_'

/-- Case-insensitive character comparison (the `/i` flag; all pattern
characters are ASCII). -/
def lowerEq (a b : Char) : Bool :=
  a.toLower == b.toLower

/-- Match the literal pattern at the head of the text, case
insensitively, returning the remaining text on a match. -/
def matchCI : List Char → List Char → Option (List Char)
  | [], txt => some txt
  | _ :: _, [] => none
  | p :: ps, t :: ts => if lowerEq p t then matchCI ps ts else none

/-- A `\b` word boundary against the adjacent character (`none` is the
string edge). -/
def boundaryOk : Option Char → Bool
  | none => true
  | some c => !wordChar c

/-- `\b w \b` matches at the current position: the previous character is
a boundary, the word matches here, and the following character is a
boundary. -/
def matchWordHere (w : List Char) (prev : Option Char) (txt : List Char) : Bool :=
  boundaryOk prev &&
    match matchCI w txt with
    | some rest => boundaryOk rest.head?
    | none => false

/-- Search every position of the text for a `\b w \b` match. -/
def hasWordAux (w : List Char) : Option Char → List Char → Bool
  | prev, [] => matchWordHere w prev []
  | prev, c :: rest => matchWordHere w prev (c :: rest) || hasWordAux w (some c) rest

/-- `new RegExp("\\b(" + w + ")\\b", "i").test(text)` for a literal
word `w`. -/
def hasWordCI (text w : String) : Bool :=
  hasWordAux w.data none text.data

/-- `^pat` with `/i` for a literal pattern: a case-insensitive text
position-zero match. -/
def textStartsWithCI (text pat : String) : Bool :=
  (matchCI pat.data text.data).isSome

/-- The alternatives of the first pattern
`/^(I|Here|Let me|Based on|According to|The answer is|Sure|Of course|Certainly)/i`. -/
def aiOpeners : List String :=
  ["I", "Here", "Let me", "Based on", "According to", "The answer is",
   "Sure", "Of course", "Certainly"]

/-- The alternatives of
`/\b(help|assist|explain|understand|provide|suggest|recommend)\b/i`. -/
def helpVocab : List String :=
  ["help", "assist", "explain", "understand", "provide", "suggest", "recommend"]

/-- The alternatives of `/\b(AI|assistant|model|system)\b/i`. -/
def aiVocab : List String :=
  ["AI", "assistant", "model", "system"]

/-- `aiPatterns.some((pattern) => pattern.test(text))`
(`part_002` line 688). -/
def aiPatternsMatch (text : String) : Bool :=
  aiOpeners.any (fun p => textStartsWithCI text p) ||
  helpVocab.any (fun w => hasWordCI text w) ||
  aiVocab.any (fun w => hasWordCI text w)

/-- `const isLikelyAI = aiPatterns.some(...) || text.length > 30`
(`part_002` line 688). -/
def isLikelyAI (text : String) : Bool :=
  aiPatternsMatch text || text.length > 30

/-- Speaker tag of a `TranscriptEntry` (`part_002` line 47). -/
inductive Speaker
  | user
  | ai
deriving DecidableEq, Repr

/-- Source tag of a `TranscriptEntry` (`part_002` line 49). -/
inductive EntrySource
  | microphone
  | system
  | manual
deriving DecidableEq, Repr

/-- `TranscriptEntry` (`part_002` lines 44–51); the float confidence is
embedded as a rational. -/
structure TranscriptEntry where
  id : String
  timestamp : String
  speaker : Speaker
  text : String
  source : Option EntrySource
  confidence : Option ℚ
deriving DecidableEq, Repr

/-- The values the `second` component of an
`Intl.DateTimeFormat`/`toLocaleTimeString` options object accepts
(ECMA-402 `GetOption` for `"second"`): `"2-digit"` or `"numeric"`; any
other value raises a `RangeError`. -/
def validSecondOption (v : String) : Bool :=
  v == "2-digit" || v == "numeric"

/-- The `RangeError` raised by an out-of-range `second` option value. -/
def secondOptionRangeError : String :=
  "RangeError: Value second out of range for Intl.DateTimeFormat options property second"

/-- `new Date().toLocaleTimeString([], { hour: "2-digit",
minute: "2-digit", second: v })`: yields the environment-supplied
formatted time `now` when `v` is valid and raises the `RangeError`
(embedded as `Except.error`) otherwise. -/
def toLocaleTimeStringOpt (secondOpt : String) (now : String) : Except String String :=
  if validSecondOption secondOpt then Except.ok now
  else Except.error secondOptionRangeError

/-- The desktop `handleSpeechResult` callback (`part_002` lines
679–707): the raw text is trimmed; only a finalized result longer than
10 characters that the heuristic accepts reaches the entry literal.
Evaluating that literal computes its `timestamp` field through
`toLocaleTimeString([], { hour: "2-digit", minute: "2-digit",
second: "second" })` (line 696), whose invalid `second` value raises a
`RangeError`; `recognition.onresult` has no `try`/`catch` (the `try` in
`setupDesktopRecognition` only wraps setup), so the throw escapes
before `setTranscript` runs.  `Except.error` embeds the throw;
`Except.ok` carries the entry the handler appends, if any. -/
def desktopEntry (partialText : String) (isFinal : Bool) (idTok now : String) :
    Except String (Option TranscriptEntry) :=
  let text := jsTrim partialText
  if isFinal = true ∧ 10 < text.length then
    if isLikelyAI text then
      match toLocaleTimeStringOpt "second" now with
      | Except.error e => Except.error e
      | Except.ok ts =>
        Except.ok (some
          { id := idTok, timestamp := ts, speaker := Speaker.ai, text := text,
            source := some EntrySource.system, confidence := some (8 / 10 : ℚ) })
    else Except.ok none
  else Except.ok none

/-- The entry a handler run appended to the transcript: none when the
run threw or rejected the text. -/
def createdEntry (r : Except String (Option TranscriptEntry)) : Option TranscriptEntry :=
  match r with
  | Except.ok o => o
  | Except.error _ => none

/-- The uncaught exception of a handler run, if it threw. -/
def thrownMsg (r : Except String (Option TranscriptEntry)) : Option String :=
  match r with
  | Except.ok _ => none
  | Except.error e => some e

/-! ## Session start: stream acquisition and failure policy

`startRecording` (`part_002` lines 799–993).  Acquisition of each
source either succeeds or throws; the environment records which.  Note
that inside one invocation the `captureMode` closure variable keeps the
value the session was requested with — `setCaptureMode` only schedules a
state update — so every branch test below uses the requested `mode`,
exactly as the source does. -/

/-- Requested capture mode (`part_002` line 388). -/
inductive CaptureMode
  | microphone
  | desktop
  | both
deriving DecidableEq, Repr

/-- Acquisition environment: platform flag and whether each source can
be acquired. -/
structure StartEnv where
  isSafari : Bool
  micOk : Bool
  desktopOk : Bool
deriving DecidableEq, Repr

/-- Observable outcome of `startRecording`: whether the session
started, which streams were acquired, the surfaced error, and the
capture-mode state after the run. -/
structure StartOutcome where
  started : Bool
  micStream : Bool
  desktopStream : Bool
  errorMsg : Option String
  captureModeAfter : CaptureMode
deriving DecidableEq, Repr

/-- The body of the `try` block of `startRecording` (lines 829–963):
microphone phase (834–856), then desktop phase (859–882).  A throw
carries the surfaced message together with the capture-mode state at
the moment of the throw. -/
def startRecordingTry (env : StartEnv) (mode : CaptureMode) :
    Except (String × CaptureMode) (Bool × Bool × CaptureMode) :=
  let micStep : Except (String × CaptureMode) (Bool × CaptureMode) :=
    if mode = CaptureMode.microphone ∨ mode = CaptureMode.both then
      if env.micOk then Except.ok (true, mode)
      else if mode = CaptureMode.both then Except.ok (false, CaptureMode.desktop)
      else Except.error ("Cannot access microphone", mode)
    else Except.ok (false, mode)
  match micStep with
  | Except.error e => Except.error e
  | Except.ok (mic, modeVar) =>
    if (mode = CaptureMode.desktop ∨ mode = CaptureMode.both) ∧ env.isSafari = false then
      if env.desktopOk then Except.ok (mic, true, modeVar)
      else if mode = CaptureMode.both then Except.ok (mic, false, CaptureMode.microphone)
      else
        if env.micOk then Except.ok (true, false, CaptureMode.microphone)
        else Except.error ("Cannot access microphone", CaptureMode.microphone)
    else Except.ok (mic, false, modeVar)

/-- The Safari guard message (`part_002` lines 803–807). -/
def safariDesktopMsg : String :=
  "Safari doesn't support desktop audio capture. Please switch to microphone mode or use Chrome/Firefox for desktop recording."

/-- `startRecording` (`part_002` lines 799–993): the early Safari
guard, then the acquisition phases; the outer catch (lines 987–992)
surfaces the error and leaves the session unstarted, while a normal run
ends with `setIsRecording(true)` — whatever streams were obtained. -/
def startRecordingFlow (env : StartEnv) (mode : CaptureMode) : StartOutcome :=
  if env.isSafari = true ∧ mode = CaptureMode.desktop then
    { started := false, micStream := false, desktopStream := false,
      errorMsg := some safariDesktopMsg, captureModeAfter := mode }
  else
    match startRecordingTry env mode with
    | Except.ok (mic, desk, modeAfter) =>
      { started := true, micStream := mic, desktopStream := desk,
        errorMsg := none, captureModeAfter := modeAfter }
    | Except.error (e, modeAfter) =>
      { started := false, micStream := false, desktopStream := false,
        errorMsg := some ("Failed to start recording: " ++ e), captureModeAfter := modeAfter }

/-! ## Recognition session teardown

`cleanupAudioProcessing` (`part_002` lines 491–525) is the only place a
recognition session is stopped on session stop.  Sessions are
identified by tokens; the coordinator's `recognitionRef` holds the
microphone-bound session (`setupMicRecognition`, line 661), while
`setupDesktopRecognition` (line 709) keeps its session only in a local
constant that is never stored in a ref. -/

/-- The coordinator's recognition bookkeeping: the single ref, the set
of sessions ever started, and the set explicitly stopped. -/
structure CoordinatorState where
  recognitionRef : Option Nat
  activeSessions : List Nat
  stoppedSessions : List Nat
deriving DecidableEq, Repr

/-- `setupMicRecognition` (`part_002` lines 634–671): constructs and
starts a recognition session and stores it in `recognitionRef`. -/
def setupMicRecognition (st : CoordinatorState) (sid : Nat) : CoordinatorState :=
  { st with recognitionRef := some sid,
            activeSessions := st.activeSessions ++ [sid] }

/-- `setupDesktopRecognition` (`part_002` lines 674–717): constructs
and starts a recognition session held only in the local
`desktopRecognition` constant — no ref records it. -/
def setupDesktopRecognition (st : CoordinatorState) (sid : Nat) : CoordinatorState :=
  { st with activeSessions := st.activeSessions ++ [sid] }

/-- `cleanupAudioProcessing` (`part_002` lines 491–525): the only
recognition stop issued is `recognitionRef.current.stop()`, wrapped in
`try`/`catch` so a platform stop failure (`stopFails`) cannot escape;
the ref is cleared afterwards either way.  A session counts as
explicitly stopped when `stop()` was issued on it. -/
def cleanupAudioProcessing (st : CoordinatorState) (stopFails : Bool) : CoordinatorState :=
  match st.recognitionRef, stopFails with
  | some sid, _ =>
      { st with
        stoppedSessions := st.stoppedSessions ++ [sid],
        recognitionRef := none }
  | none, _ => st

/-! ## Helper lemmas -/

theorem runWithRetries_first_ok (o : Nat → Except String GeminiResp) (r : GeminiResp)
    (h0 : o 0 = Except.ok r) : runWithRetries o = Except.ok r := by
  simp [runWithRetries, maxRetries, retryLoop, h0]

theorem runWithRetries_third_ok (o : Nat → Except String GeminiResp) (e0 e1 : String)
    (r : GeminiResp) (h0 : o 0 = Except.error e0) (h1 : o 1 = Except.error e1)
    (h2 : o 2 = Except.ok r) : runWithRetries o = Except.ok r := by
  simp [runWithRetries, maxRetries, retryLoop, h0, h1, h2]

theorem runWithRetries_all_fail (o : Nat → Except String GeminiResp) (e0 e1 e2 : String)
    (h0 : o 0 = Except.error e0) (h1 : o 1 = Except.error e1)
    (h2 : o 2 = Except.error e2) : runWithRetries o = Except.error e2 := by
  simp [runWithRetries, maxRetries, retryLoop, h0, h1, h2]

theorem processAudioChunk_guard (env : DispatchEnv) (st : DispatcherState) (i : Nat)
    (hnp : i ∉ st.processedChunks) (hlt : i < env.numChunks) :
    ¬(i ∈ st.processedChunks ∨ env.numChunks ≤ i) := by
  push_neg
  exact ⟨hnp, hlt⟩

theorem processAudioChunk_success_third (env : DispatchEnv) (st : DispatcherState) (i : Nat)
    (hnp : i ∉ st.processedChunks) (hlt : i < env.numChunks)
    (hkeys : 0 < env.geminiApiKeys.length) (e0 e1 t : String)
    (h0 : env.outcomes i 0 = Except.error e0) (h1 : env.outcomes i 1 = Except.error e1)
    (h2 : env.outcomes i 2 = Except.ok ⟨true, some t, none⟩) :
    processAudioChunk env st i =
      { st with
        completedTranscripts := setExtend st.completedTranscripts i t,
        processedChunks := i :: st.processedChunks,
        finalTranscripts := setExtend st.finalTranscripts i t } := by
  rw [processAudioChunk, if_neg (processAudioChunk_guard env st i hnp hlt),
    getApiKeyForChunk_pos env.geminiApiKeys i hkeys,
    runWithRetries_third_ok (env.outcomes i) e0 e1 _ h0 h1 h2]
  simp [handleTranscriptComplete]

theorem processAudioChunk_all_fail (env : DispatchEnv) (st : DispatcherState) (i : Nat)
    (hnp : i ∉ st.processedChunks) (hlt : i < env.numChunks)
    (hkeys : 0 < env.geminiApiKeys.length) (e0 e1 e2 : String)
    (h0 : env.outcomes i 0 = Except.error e0) (h1 : env.outcomes i 1 = Except.error e1)
    (h2 : env.outcomes i 2 = Except.error e2) :
    processAudioChunk env st i = { st with errorMsg := some (chunkFailMsg i e2) } := by
  rw [processAudioChunk, if_neg (processAudioChunk_guard env st i hnp hlt),
    getApiKeyForChunk_pos env.geminiApiKeys i hkeys,
    runWithRetries_all_fail (env.outcomes i) e0 e1 e2 h0 h1 h2]

theorem validSecondOption_second : validSecondOption "second" = false := by
  decide

/-! ## Claim theorems -/

/-- C1 (code bug): the `MediaRecorder` `stop` listener calls the
session-start `saveCurrentChunk` closure, whose `currentChunkNumber` is
frozen, so the program does not number chunks `1..N`.  On a first-ever
session (render-time counter 1), two data-producing seals both stamp
`chunkNumber = 1` — the claim requires `[1, 2]` — while the live
counter (the UI display) still advances to 3; and a following session
stamps all its chunks with the stale pre-reset counter 3 instead of
restarting at 1. -/
theorem chunk_numbering_stale_closure :
    (startSession ⟨[], 1, 0, [], false, false⟩
        [([[1, 2]], "t1"), ([[3]], "t2")]).audioChunks.map
      AudioChunk.chunkNumber = [1, 1] ∧
    (startSession ⟨[], 1, 0, [], false, false⟩
        [([[1, 2]], "t1"), ([[3]], "t2")]).currentChunkNumber = 3 ∧
    (startSession
        (startSession ⟨[], 1, 0, [], false, false⟩ [([[1, 2]], "t1"), ([[3]], "t2")])
        [([[4]], "t3"), ([[5]], "t4")]).audioChunks.map
      AudioChunk.chunkNumber = [3, 3] := by
  decide

/-- C2: for every set of completed chunk transcriptions with distinct
chunk indices, and any completion order, each result lands in the slot
at its own chunk index and the assembled combined output is invariant
under reordering of completion; assembly traverses slots in index
order. -/
theorem slot_assembly_completion_order_invariant (l : List Slot)
    (ws₁ ws₂ : List (Nat × String)) (hp : ws₁.Perm ws₂)
    (hnd : (ws₁.map Prod.fst).Nodup) :
    applyWrites l ws₁ = applyWrites l ws₂ ∧
    downloadAllTranscripts (applyWrites l ws₁) =
      downloadAllTranscripts (applyWrites l ws₂) ∧
    ∀ p ∈ ws₁, getSlot (applyWrites l ws₁) p.1 = some p.2 := by
  have h := applyWrites_perm l ws₁ ws₂ hp hnd
  exact ⟨h, by rw [h], fun p hp' => getSlot_applyWrites_mem ws₁ l p hnd hp'⟩

/-- Witness for C2: three completions applied in two different orders
give the same slot array, and the slot at index 1 holds its own
transcript. -/
theorem slot_assembly_completion_order_invariant_witness :
    (([(0, "a"), (1, "b"), (2, "c")] : List (Nat × String)).Perm
        [(2, "c"), (0, "a"), (1, "b")]) ∧
    applyWrites [] [(0, "a"), (1, "b"), (2, "c")] =
      applyWrites [] [(2, "c"), (0, "a"), (1, "b")] ∧
    getSlot (applyWrites [] [(0, "a"), (1, "b"), (2, "c")]) 1 = some "b" := by
  have h := slot_assembly_completion_order_invariant []
    [(0, "a"), (1, "b"), (2, "c")] [(2, "c"), (0, "a"), (1, "b")]
    (by decide) (by decide)
  exact ⟨by decide, h.1, h.2.2 (1, "b") (by decide)⟩

/-- C3: with a non-empty pool of size `K`, the credential used for chunk
`i` is `pool[i mod K]`; for a pool of 2 keys and 5 chunks, key 0 serves
chunks 0, 2, 4 and key 1 serves chunks 1, 3. -/
theorem credential_rotation_round_robin (keys : List String) (i : Nat)
    (h : 0 < keys.length) :
    getApiKeyForChunk keys i =
      some (keys.get ⟨i % keys.length, Nat.mod_lt i h⟩) ∧
    (List.range 5).map (getApiKeyForChunk ["key0", "key1"]) =
      [some "key0", some "key1", some "key0", some "key1", some "key0"] :=
  ⟨getApiKeyForChunk_pos keys i h, by decide⟩

/-- Witness for C3: a pool of 2 keys, chunk 4, gives key 0. -/
theorem credential_rotation_round_robin_witness :
    0 < (["key0", "key1"] : List String).length ∧
    getApiKeyForChunk ["key0", "key1"] 4 = some "key0" := by
  refine ⟨by decide, ?_⟩
  have h := (credential_rotation_round_robin ["key0", "key1"] 4 (by decide)).1
  exact h.trans (by decide)

/-- C4 counterexample: a chunk whose three transcription attempts all
fail does NOT get an error-marked slot — the slot array is untouched
(slot 0 stays a hole) and only the component-level error string is
set. -/
theorem three_failures_slot_not_error_marked :
    processAudioChunk ⟨1, ["k"], fun _ _ => Except.error "boom"⟩
        ⟨[], [], [], none⟩ 0 =
      ⟨[], [], [], some "Chunk 1 failed: boom"⟩ ∧
    getSlot (processAudioChunk ⟨1, ["k"], fun _ _ => Except.error "boom"⟩
        ⟨[], [], [], none⟩ 0).completedTranscripts 0 = none := by
  decide

/-- C4 (amended): a transcription call is retried with a budget of 2
retries after the first attempt (2-second backoff); failing twice then
succeeding on the third attempt fills the slot with the successful
transcript, marks the chunk processed and records no error; failing
three times sets the session-level error string for the chunk while
leaving its slot unfilled and the chunk unprocessed, and subsequent
chunks remain eligible so processing proceeds without stalling. -/
theorem retry_budget_behavior (env : DispatchEnv) (st : DispatcherState)
    (i : Nat) (hnp : i ∉ st.processedChunks) (hlt : i < env.numChunks)
    (hkeys : 0 < env.geminiApiKeys.length) :
    (∀ e0 e1 t, env.outcomes i 0 = Except.error e0 →
      env.outcomes i 1 = Except.error e1 →
      env.outcomes i 2 = Except.ok ⟨true, some t, none⟩ →
      processAudioChunk env st i =
        { st with
          completedTranscripts := setExtend st.completedTranscripts i t,
          processedChunks := i :: st.processedChunks,
          finalTranscripts := setExtend st.finalTranscripts i t }) ∧
    (∀ e0 e1 e2, env.outcomes i 0 = Except.error e0 →
      env.outcomes i 1 = Except.error e1 →
      env.outcomes i 2 = Except.error e2 →
      processAudioChunk env st i = { st with errorMsg := some (chunkFailMsg i e2) } ∧
      (∀ j, j ∈ unprocessedChunks env.numChunks st.processedChunks →
        j ∈ unprocessedChunks env.numChunks (processAudioChunk env st i).processedChunks)) := by
  constructor
  · intro e0 e1 t h0 h1 h2
    exact processAudioChunk_success_third env st i hnp hlt hkeys e0 e1 t h0 h1 h2
  · intro e0 e1 e2 h0 h1 h2
    have hfail := processAudioChunk_all_fail env st i hnp hlt hkeys e0 e1 e2 h0 h1 h2
    refine ⟨hfail, ?_⟩
    intro j hj
    rw [hfail]
    exact hj

/-- Witness for C4: a fail-fail-succeed run fills slot 0; an
all-fail run leaves the slots empty and sets the error string. -/
theorem retry_budget_behavior_witness :
    processAudioChunk
        ⟨1, ["k"], fun _ k =>
          if k < 2 then Except.error "boom" else Except.ok ⟨true, some "T", none⟩⟩
        ⟨[], [], [], none⟩ 0 = ⟨[some "T"], [0], [some "T"], none⟩ ∧
    processAudioChunk ⟨1, ["k"], fun _ _ => Except.error "boom"⟩
        ⟨[], [], [], none⟩ 0 = ⟨[], [], [], some "Chunk 1 failed: boom"⟩ := by
  constructor
  · have h := (retry_budget_behavior
        ⟨1, ["k"], fun _ k =>
          if k < 2 then Except.error "boom" else Except.ok ⟨true, some "T", none⟩⟩
        ⟨[], [], [], none⟩ 0 (by decide) (by decide) (by decide)).1
      "boom" "boom" "T" rfl rfl rfl
    exact h.trans (by decide)
  · have h := ((retry_budget_behavior ⟨1, ["k"], fun _ _ => Except.error "boom"⟩
        ⟨[], [], [], none⟩ 0 (by decide) (by decide) (by decide)).2
      "boom" "boom" "boom" rfl rfl rfl).1
    exact h.trans (by decide)

/-- C5: once chunk `i` is recorded as processed (its slot was filled
together with the `processedChunks` insertion), every later dispatcher
operation on `i` is a no-op: `processAudioChunk` returns the state
unchanged and the dispatch cycle's unprocessed list excludes `i`. -/
theorem processed_chunk_terminal (env : DispatchEnv) (st : DispatcherState)
    (i : Nat) (h : i ∈ st.processedChunks) :
    processAudioChunk env st i = st ∧
    i ∉ unprocessedChunks env.numChunks st.processedChunks := by
  refine ⟨?_, ?_⟩
  · simp [processAudioChunk, h]
  · simp [unprocessedChunks, List.mem_filter, h]

/-- Witness for C5: a state with chunk 0 processed is left unchanged by
a re-dispatch of chunk 0. -/
theorem processed_chunk_terminal_witness :
    (0 ∈ ([0] : List Nat)) ∧
    processAudioChunk ⟨1, ["k"], fun _ _ => Except.error "x"⟩
        ⟨[some "t"], [0], [some "t"], none⟩ 0 =
      ⟨[some "t"], [0], [some "t"], none⟩ :=
  ⟨by decide,
    (processed_chunk_terminal ⟨1, ["k"], fun _ _ => Except.error "x"⟩
      ⟨[some "t"], [0], [some "t"], none⟩ 0 (by decide)).1⟩

/-- C6 counterexample: with one sealed chunk and an empty credential
pool the dispatcher stays idle (state unchanged — so the claim's
"remains pending" part holds), but the "not configured" notice is NOT
rendered, because it sits inside the `audioChunks.length === 0`
empty-state branch. -/
theorem empty_pool_notice_not_shown_with_chunks :
    dispatchCycle ⟨1, [], fun _ _ => Except.error "unreachable"⟩ true false
        ⟨[], [], [], none⟩ = ⟨[], [], [], none⟩ ∧
    notConfiguredMessageShown 1 0 = false := by
  decide

/-- C6 (amended): with an empty credential pool the dispatch cycle
issues no work — no slot is filled and no error is recorded for any
chunk, the state is untouched — and the "not configured" notice is
shown exactly in the empty state, i.e. only while no chunk has been
sealed yet. -/
theorem empty_pool_chunks_stay_pending (env : DispatchEnv)
    (autoStart processingFlag : Bool) (st : DispatcherState)
    (hkeys : env.geminiApiKeys = []) :
    dispatchCycle env autoStart processingFlag st = st ∧
    notConfiguredMessageShown env.numChunks env.geminiApiKeys.length =
      (env.numChunks == 0) := by
  constructor
  · rw [dispatchCycle, if_neg]
    rw [hkeys]
    simp
  · rw [hkeys]
    simp [notConfiguredMessageShown]

/-- Witness for C6: one sealed chunk, empty pool — the state is
unchanged and the notice is off. -/
theorem empty_pool_chunks_stay_pending_witness :
    ((⟨1, [], fun _ _ => Except.error "x"⟩ : DispatchEnv).geminiApiKeys = []) ∧
    dispatchCycle ⟨1, [], fun _ _ => Except.error "x"⟩ true false
        ⟨[], [0], [], none⟩ = ⟨[], [0], [], none⟩ ∧
    notConfiguredMessageShown 1 0 = false := by
  have h := empty_pool_chunks_stay_pending ⟨1, [], fun _ _ => Except.error "x"⟩
    true false ⟨[], [0], [], none⟩ rfl
  exact ⟨rfl, h.1, h.2.trans (by decide)⟩

/-- C7 (code bug): no finalized desktop recognition result ever creates
a `TranscriptEntry` — the entry literal's timestamp is computed with
the invalid Intl option `second: "second"` (`part_002` line 696; the
microphone handler correctly uses `"2-digit"`), which raises an
uncaught `RangeError` exactly when the heuristic accepts the text, i.e.
when the trimmed text is longer than 10 characters and a pattern
matches or it is longer than 30 characters.  In particular the claim's
length-35 no-pattern text raises the `RangeError` instead of producing
an entry, while the length-8 text is rejected by the guard before the
faulty call and produces none. -/
theorem desktop_entry_never_created_rangeerror :
    (∀ (p : String) (isFin : Bool) (idTok now : String),
      createdEntry (desktopEntry p isFin idTok now) = none) ∧
    (∀ p idTok now : String,
      (thrownMsg (desktopEntry p true idTok now)).isSome =
        (decide (10 < (jsTrim p).length) &&
          (aiPatternsMatch (jsTrim p) || decide (30 < (jsTrim p).length)))) ∧
    thrownMsg (desktopEntry "qqqqq qqqqq qqqqq qqqqq qqqqq qqqqq" true "id" "now") =
      some secondOptionRangeError ∧
    aiPatternsMatch "qqqqq qqqqq qqqqq qqqqq qqqqq qqqqq" = false ∧
    ("qqqqq qqqqq qqqqq qqqqq qqqqq qqqqq" : String).length = 35 ∧
    thrownMsg (desktopEntry "qq qq qq" true "id" "now") = none ∧
    createdEntry (desktopEntry "qq qq qq" true "id" "now") = none ∧
    ("qq qq qq" : String).length = 8 := by
  refine ⟨?_, ?_, by decide, by decide, by decide, by decide, by decide, by decide⟩
  · intro p isFin idTok now
    by_cases h1 : isFin = true ∧ 10 < (jsTrim p).length
    · by_cases h2 : isLikelyAI (jsTrim p) = true
      · simp [desktopEntry, h1, h2, toLocaleTimeStringOpt,
          validSecondOption_second, createdEntry]
      · simp [desktopEntry, h1, h2, createdEntry]
    · simp [desktopEntry, h1, createdEntry]
  · intro p idTok now
    by_cases h1 : 10 < (jsTrim p).length
    · by_cases h2 : isLikelyAI (jsTrim p) = true
      · have h2' := h2
        rw [isLikelyAI, Bool.or_eq_true] at h2'
        simp [desktopEntry, h1, h2, toLocaleTimeStringOpt,
          validSecondOption_second, thrownMsg, isLikelyAI] at h2' ⊢
        rcases h2' with h | h <;> simp [h]
      · have h2' := h2
        rw [isLikelyAI, Bool.or_eq_true] at h2'
        push_neg at h2'
        have ha : aiPatternsMatch (jsTrim p) = false := by
          simpa using h2'.1
        have hb : decide (30 < (jsTrim p).length) = false := by
          simpa using h2'.2
        simp [desktopEntry, h1, h2, thrownMsg, ha, hb]
    · simp [desktopEntry, h1, thrownMsg]

/-- C8 counterexample: in desktop-only mode with desktop acquisition
failing and the microphone available, the session is NOT aborted — the
code falls back to microphone capture and starts with no surfaced
session error. -/
theorem desktop_failure_falls_back_to_mic :
    startRecordingFlow ⟨false, true, false⟩ CaptureMode.desktop =
      { started := true, micStream := true, desktopStream := false,
        errorMsg := none, captureModeAfter := CaptureMode.microphone } := by
  decide

/-- C8 (amended): microphone-mode failure of the microphone aborts
session start with a surfaced error; desktop-mode failure of desktop
capture falls back to attempting microphone capture, starting with the
microphone when it is available and aborting only when it is not; in
`both` mode a single-source failure degrades the session to the other
source. -/
theorem acquisition_failure_policy :
    (∀ d : Bool,
      (startRecordingFlow ⟨false, false, d⟩ CaptureMode.microphone).started = false ∧
      (startRecordingFlow ⟨false, false, d⟩ CaptureMode.microphone).errorMsg ≠ none) ∧
    (startRecordingFlow ⟨false, true, false⟩ CaptureMode.desktop =
      { started := true, micStream := true, desktopStream := false,
        errorMsg := none, captureModeAfter := CaptureMode.microphone }) ∧
    ((startRecordingFlow ⟨false, false, false⟩ CaptureMode.desktop).started = false ∧
      (startRecordingFlow ⟨false, false, false⟩ CaptureMode.desktop).errorMsg ≠ none) ∧
    (startRecordingFlow ⟨false, true, false⟩ CaptureMode.both =
      { started := true, micStream := true, desktopStream := false,
        errorMsg := none, captureModeAfter := CaptureMode.microphone }) ∧
    (startRecordingFlow ⟨false, false, true⟩ CaptureMode.both =
      { started := true, micStream := false, desktopStream := true,
        errorMsg := none, captureModeAfter := CaptureMode.desktop }) := by
  decide

/-- C9 (code bug): stopping a session with both recognition sessions
active stops only the microphone-bound session held in
`recognitionRef`; the desktop-bound session, held only in a local
constant of `setupDesktopRecognition`, is never explicitly stopped —
whether or not the platform `stop()` call fails, which the local
`catch` swallows. -/
theorem stop_leaves_desktop_session_unstopped :
    (∀ b : Bool,
      cleanupAudioProcessing
        (setupDesktopRecognition (setupMicRecognition ⟨none, [], []⟩ 1) 2) b =
        ⟨none, [1, 2], [1]⟩) ∧
    2 ∈ (setupDesktopRecognition (setupMicRecognition ⟨none, [], []⟩ 1) 2).activeSessions ∧
    2 ∉ (cleanupAudioProcessing
        (setupDesktopRecognition (setupMicRecognition ⟨none, [], []⟩ 1) 2) false).stoppedSessions := by
  decide

/-- C10: when every transcription attempt for chunk `i` fails, the
dispatcher's per-chunk output is unchanged — slot `i` is not written and
`i` is not added to the processed set — so `i` is still listed by the
next dispatch cycle's unprocessed computation. -/
theorem failed_chunk_redispatch_eligible (env : DispatchEnv)
    (st : DispatcherState) (i : Nat) (hnp : i ∉ st.processedChunks)
    (hlt : i < env.numChunks) (hkeys : 0 < env.geminiApiKeys.length)
    (e0 e1 e2 : String)
    (h0 : env.outcomes i 0 = Except.error e0)
    (h1 : env.outcomes i 1 = Except.error e1)
    (h2 : env.outcomes i 2 = Except.error e2) :
    (processAudioChunk env st i).completedTranscripts = st.completedTranscripts ∧
    (processAudioChunk env st i).processedChunks = st.processedChunks ∧
    (processAudioChunk env st i).finalTranscripts = st.finalTranscripts ∧
    i ∈ unprocessedChunks env.numChunks (processAudioChunk env st i).processedChunks := by
  have hfail := processAudioChunk_all_fail env st i hnp hlt hkeys e0 e1 e2 h0 h1 h2
  rw [hfail]
  refine ⟨rfl, rfl, rfl, ?_⟩
  simp [unprocessedChunks, List.mem_filter, List.mem_range, hnp, hlt]

/-- Witness for C10: chunk 0 fails all three attempts and stays in the
unprocessed list. -/
theorem failed_chunk_redispatch_eligible_witness :
    (0 ∉ (([] : List Nat))) ∧
    (processAudioChunk ⟨1, ["k"], fun _ _ => Except.error "boom"⟩
        ⟨[], [], [], none⟩ 0).processedChunks = [] ∧
    0 ∈ unprocessedChunks 1
      (processAudioChunk ⟨1, ["k"], fun _ _ => Except.error "boom"⟩
        ⟨[], [], [], none⟩ 0).processedChunks := by
  have h := failed_chunk_redispatch_eligible
    ⟨1, ["k"], fun _ _ => Except.error "boom"⟩ ⟨[], [], [], none⟩ 0
    (by decide) (by decide) (by decide) "boom" "boom" "boom" rfl rfl rfl
  exact ⟨by decide, h.2.1, h.2.2.2⟩

end SesameRecorder
